import Mathlib

/-!
Verification of the agentic control loop of `main.py` (sourcefinder backend).

The websocket endpoint drives an inner conversation loop per user message:
it calls a reasoning model, dispatches at most one tool call per round,
folds tool results back into the chat history, and — when no tool is
requested — consults a second "quality gate" model that either affirms
(response text exactly "yes") or supplies a replacement query.

The embedding below translates that loop into pure Lean functions.  The
three external collaborators (reasoning model, tool provider, gate model)
are a record of functions `Env`; a raised exception is an `Except.error`
carrying the string description of the exception, mirroring str(e) in the
`except` handler.  Outbound websocket events and external calls are
collected in lists so that temporal claims (gate-invocation discipline,
event shapes) become statements about those traces.
-/

namespace SourceFinder

/-- System prompt used on every reasoning call (main.py lines 33-40). -/
def prompt : String :=
  "You are a source finding agent who finds original sources as well as references and links to sources. You can use the web search tool, and you have access to the web pages content themselves to read the articles and see what they reference. If asked about finding sources, search for at least 5 sources to ensure you have enough information to answer the user\x27s query. If an initial search does not find what the user is looking for, try again with a different query and query parameters. If you find a source, return the source in a list of dictionaries with the following format: source_name, source_url, source_type, source_description, source_date"

/-- Instruction prefixed to the transcript when calling the gate model
(main.py line 63, the grok user message content). -/
def grokInstruction : String :=
  "you are a quality control agent for the source finding agent. does this response give a satisfactory and correct answer to the user\x27s query? for example, for the original source of the dire wolves being brought back, the answer should be colossal biosciences who released the press release. if the user is asking for general sources and thats all that is found, respond with \x60yes\x60 or if the user is just asking a chatty question, respond with respond with \x60yes\x60 to allow the agent to respond and finish looping. If yes, respond with \x60yes\x60 ONLY. If no, respond with a new query to search for the correct answer : "

/-- One tool call object as returned by the reasoning model
(`tool_call.id`, `tool_call.function.name`, `tool_call.function.arguments`). -/
structure ToolCall where
  id : String
  name : String
  arguments : String
deriving DecidableEq

/-- The message returned by the reasoning model: optional text content plus a (possibly
empty) list of tool calls; the code only ever uses the first one. -/
structure ModelMessage where
  content : Option String
  tool_calls : List ToolCall
deriving DecidableEq

/-- One entry of `chat_history`.  The code appends three dict shapes:
`\x7b"role": "assistant", "content": content\x7d`,
`\x7b"role": "assistant", "tool_calls": [tool_call]\x7d` (no content key), and
`\x7b"role": "tool", "tool_call_id": id, "content": json.dumps(result)\x7d`. -/
inductive Turn
  | assistantMessage (content : String)
  | assistantToolCalls (tc : ToolCall)
  | toolResult (tool_call_id : String) (content : String)
deriving DecidableEq

/-- The role field, msg.get("role"), for each history dict shape. -/
def Turn.role : Turn → String
  | .assistantMessage _ => "assistant"
  | .assistantToolCalls _ => "assistant"
  | .toolResult _ _ => "tool"

/-- The content field, msg.get("content"): the tool-call turn carries no content key. -/
def Turn.content? : Turn → Option String
  | .assistantMessage c => some c
  | .assistantToolCalls _ => none
  | .toolResult _ c => some c

/-- Python truthiness of an optional string: `None` and `""` are falsy. -/
def pyTruthy : Option String → Bool
  | none => false
  | some s => !(s == "")

/-- The transcript built for the gate (main.py lines 167-171):
a newline-join of role-prefixed lines over the turns whose content field is truthy. -/
def chat_summary (chat_history : List Turn) : String :=
  String.intercalate "\n"
    ((chat_history.filter (fun msg => pyTruthy msg.content?)).map
      (fun msg => msg.role ++ ": " ++ msg.content?.getD ""))

/-- One entry of the `messages` list handed to the reasoning model: the
system dict, the user dict, or a history dict (main.py lines 104-114). -/
inductive ChatMsg
  | system (content : String)
  | user (content : String)
  | hist (t : Turn)
deriving DecidableEq

/-- The role field of a message handed to the reasoning model. -/
def ChatMsg.role : ChatMsg → String
  | .system _ => "system"
  | .user _ => "user"
  | .hist t => t.role

/-- The full message list of one reasoning call:
`[\x7bsystem, prompt\x7d, \x7buser, message\x7d] + chat_history` (main.py lines 104-114). -/
def reasoningMessages (message : String) (chat_history : List Turn) : List ChatMsg :=
  ChatMsg.system prompt :: ChatMsg.user message :: chat_history.map ChatMsg.hist

/-- What `aci.handle_function_call` returns when it does not raise: the
ACI collaborator reports tool execution failures as a structured result
document rather than by raising (spec section 4.3: a `ToolResult` is
either a structured success payload or a structured failure). -/
inductive ToolOutcome
  | success (data : String)
  | failure (error : String)
deriving DecidableEq

/-- `json.dumps(function_result)`: serialization of the structured result
document appended to the history (main.py line 159). -/
def toolResultDumps : ToolOutcome → String
  | .success d => "\x7b\"success\": true, \"data\": " ++ d ++ "\x7d"
  | .failure e => "\x7b\"success\": false, \"error\": \"" ++ e ++ "\"\x7d"

/-- `json.dumps(function_result, indent=2)`: the pretty serialization used
in the progress event (main.py line 152). -/
def toolResultDumpsIndent : ToolOutcome → String
  | .success d => "\x7b\n  \"success\": true,\n  \"data\": " ++ d ++ "\n\x7d"
  | .failure e => "\x7b\n  \"success\": false,\n  \"error\": \"" ++ e ++ "\"\n\x7d"

/-- A typed outbound websocket event (`send_json` payloads). -/
inductive Event
  | progress (content : String)
  | message (content : String)
  | final (content : String)
  | error (content : String) (chat_history : List Turn)
deriving DecidableEq

/-- True exactly on `error` events. -/
def Event.isError : Event → Bool
  | .error _ _ => true
  | _ => false

/-- The error events of an outbound event list, in order. -/
def errorEvents (evs : List Event) : List Event :=
  evs.filter Event.isError

/-- A record of one outbound call to an external collaborator. -/
inductive Call
  | reasonCall (message : String) (chat_history : List Turn)
  | toolCall (name : String) (arguments : String)
  | gateCall (transcript : String)
deriving DecidableEq

/-- True exactly on quality-gate calls. -/
def Call.isGate : Call → Bool
  | .gateCall _ => true
  | _ => false

/-- True exactly on reasoning-model calls. -/
def Call.isReason : Call → Bool
  | .reasonCall _ _ => true
  | _ => false

/-- Number of quality-gate invocations recorded in a call trace. -/
def gateCallCount (cs : List Call) : Nat :=
  (cs.filter Call.isGate).length

/-- The three external collaborators.  `Except.error e` models a raised
exception with `str(e) = e`: for `reason` and `grok` a model-call failure,
for `handle_function_call` a raised provider/JSON error (as opposed to a
structured failure result, which is `Except.ok (ToolOutcome.failure _)`). -/
structure Env where
  reason : List ChatMsg → Except String ModelMessage
  handle_function_call : String → String → Except String ToolOutcome
  grok : String → Except String String

/-- `grok_search` (main.py lines 58-70): build the gate prompt from the
query, call the gate model, emit the feedback progress event, return the
response text of the gate model. -/
def grok_search (env : Env) (query : String) : Except String (String × Event) :=
  match env.grok (grokInstruction ++ query) with
  | .error e => .error e
  | .ok content => .ok (content, Event.progress ("Feedback from Grok: " ++ content))

/-- History turns appended by the `if content:` block (main.py line 130). -/
def contentTurns (content : Option String) : List Turn :=
  if pyTruthy content then [Turn.assistantMessage (content.getD "")] else []

/-- Events emitted by the `if content:` block (main.py lines 125-128). -/
def contentEvents (content : Option String) : List Event :=
  if pyTruthy content then [Event.message (content.getD "")] else []

/-- How one round of the inner conversation loop ends. -/
inductive RoundNext
  | next (message : String) (chat_history : List Turn)
  | finished (chat_history : List Turn)
  | failed (err : String) (snapshot : List Turn)
deriving DecidableEq

/-- One iteration of the inner `while True` loop (main.py lines 100-177):
reasoning call, then either the tool branch (lines 133-159) or the gating
branch (lines 161-177).  Returns the round outcome, the events emitted
during the round, and the external calls made during the round. -/
def runRound (env : Env) (message : String) (hist : List Turn) :
    RoundNext × List Event × List Call :=
  match env.reason (reasoningMessages message hist) with
  | .error e => (.failed e hist, [], [.reasonCall message hist])
  | .ok resp =>
    match resp.tool_calls.head? with
    | some tc =>
      match env.handle_function_call tc.name tc.arguments with
      | .error e =>
        (.failed e (hist ++ contentTurns resp.content ++ [.assistantToolCalls tc]),
         contentEvents resp.content ++
           [.progress ("Function Call: " ++ tc.name ++ "\nArguments: " ++ tc.arguments)],
         [.reasonCall message hist, .toolCall tc.name tc.arguments])
      | .ok r =>
        (.next message (hist ++ contentTurns resp.content ++
            [.assistantToolCalls tc, .toolResult tc.id (toolResultDumps r)]),
         contentEvents resp.content ++
           [.progress ("Function Call: " ++ tc.name ++ "\nArguments: " ++ tc.arguments),
            .progress ("Function Result: " ++ toolResultDumpsIndent r)],
         [.reasonCall message hist, .toolCall tc.name tc.arguments])
    | none =>
      match grok_search env (chat_summary (hist ++ contentTurns resp.content)) with
      | .error e =>
        (.failed e (hist ++ contentTurns resp.content),
         contentEvents resp.content ++ [.final "Task Completed"],
         [.reasonCall message hist,
          .gateCall (chat_summary (hist ++ contentTurns resp.content))])
      | .ok (resp2, fbEv) =>
        if resp2 == "yes" then
          (.finished (hist ++ contentTurns resp.content),
           contentEvents resp.content ++ [.final "Task Completed", fbEv],
           [.reasonCall message hist,
            .gateCall (chat_summary (hist ++ contentTurns resp.content))])
        else
          (.next resp2 (hist ++ contentTurns resp.content),
           contentEvents resp.content ++ [.final "Task Completed", fbEv],
           [.reasonCall message hist,
            .gateCall (chat_summary (hist ++ contentTurns resp.content))])

/-- Result of running the inner loop to completion (or out of fuel). -/
inductive LoopResult
  | finished (chat_history : List Turn) (events : List Event) (calls : List Call)
  | failed (err : String) (snapshot : List Turn) (events : List Event) (calls : List Call)
  | fuelOut (message : String) (chat_history : List Turn) (events : List Event) (calls : List Call)
deriving DecidableEq

/-- Prepend the events and calls of one round onto a loop result. -/
def LoopResult.seq (evs : List Event) (cs : List Call) : LoopResult → LoopResult
  | .finished h e c => .finished h (evs ++ e) (cs ++ c)
  | .failed err s e c => .failed err s (evs ++ e) (cs ++ c)
  | .fuelOut m h e c => .fuelOut m h (evs ++ e) (cs ++ c)

/-- The events of a loop result. -/
def LoopResult.events : LoopResult → List Event
  | .finished _ e _ => e
  | .failed _ _ e _ => e
  | .fuelOut _ _ e _ => e

/-- The calls of a loop result. -/
def LoopResult.calls : LoopResult → List Call
  | .finished _ _ c => c
  | .failed _ _ _ c => c
  | .fuelOut _ _ _ c => c

/-- The inner `while True` conversation loop (main.py line 100), fuelled:
the source has no iteration bound, so `fuel` bounds how many rounds we
unfold; `fuelOut` marks a run that was still looping. -/
def runLoop (env : Env) : Nat → String → List Turn → LoopResult
  | 0, m, h => .fuelOut m h [] []
  | Nat.succ n, m, h =>
    match runRound env m h with
    | (.next m2 h2, evs, cs) => LoopResult.seq evs cs (runLoop env n m2 h2)
    | (.finished h2, evs, cs) => .finished h2 evs cs
    | (.failed e s, evs, cs) => .failed e s evs cs

/-- Processing of one received user message (main.py lines 90-186): the
initial progress event, a fresh (empty) chat history, the inner loop, and
the `except` handler that turns a raised exception into a single error
event carrying `str(e)` and the chat history snapshot. -/
def processMessage (env : Env) (fuel : Nat) (msg : String) : List Event × List Call :=
  match runLoop env fuel msg [] with
  | .finished _ evs cs =>
    (Event.progress "Processing your request..." :: evs, cs)
  | .failed e snap evs cs =>
    (Event.progress "Processing your request..." :: (evs ++ [Event.error e snap]), cs)
  | .fuelOut _ _ evs cs =>
    (Event.progress "Processing your request..." :: evs, cs)

/-- The `asyncio.wait_for` timeout, in seconds (main.py line 88). -/
def RECEIVE_TIMEOUT : Nat := 600

/-- What happens on the wire while the endpoint is waiting to receive:
a text frame arriving `gap` seconds after the wait began, a disconnect
after `gap` seconds, or no further traffic at all. -/
inductive WireEvent
  | text (gap : Nat) (payload : String)
  | dropped (gap : Nat)
  | nothing
deriving DecidableEq

/-- Outcome of one `await asyncio.wait_for(websocket.receive_text(), timeout=600.0)`. -/
inductive Inbound
  | msg (text : String)
  | timeout
  | disconnect
deriving DecidableEq

/-- The receive step: traffic later than the timeout window raises
`asyncio.TimeoutError` instead of being delivered. -/
def recv : WireEvent → Inbound
  | .text gap s => if RECEIVE_TIMEOUT < gap then .timeout else .msg s
  | .dropped gap => if RECEIVE_TIMEOUT < gap then .timeout else .disconnect
  | .nothing => .timeout

/-- The outer `while True` receive loop (main.py lines 83-193): process
each delivered message in turn; a timeout or a disconnect breaks out of
the loop without emitting anything further. -/
def runSession (env : Env) (fuel : Nat) : List WireEvent → List Event
  | [] => []
  | w :: rest =>
    match recv w with
    | .msg t => (processMessage env fuel t).1 ++ runSession env fuel rest
    | .timeout => []
    | .disconnect => []

/-- The chat-history well-formedness invariant: every assistant tool-call
turn is immediately followed by exactly one tool-result turn carrying the
same tool_call_id. -/
def wfHist : List Turn → Bool
  | [] => true
  | Turn.assistantToolCalls tc :: Turn.toolResult id2 _ :: rest =>
    (id2 == tc.id) && wfHist rest
  | Turn.assistantToolCalls _ :: _ => false
  | _ :: rest => wfHist rest

theorem wfHist_append (h h2 : List Turn) (hw : wfHist h = true) :
    wfHist (h ++ h2) = wfHist h2 := by
  induction h using wfHist.induct with
  | case1 => simp
  | case2 tc id2 c rest ih =>
    simp only [wfHist, Bool.and_eq_true] at hw
    simp only [List.cons_append, wfHist, hw.1, Bool.true_and]
    exact ih hw.2
  | case3 tc tail hne => simp [wfHist] at hw
  | case4 head rest hne1 hne2 ih =>
    cases head with
    | assistantToolCalls tc => exact absurd rfl (hne2 tc)
    | assistantMessage c =>
      rw [List.cons_append]
      simp only [wfHist] at hw ⊢
      exact ih hw
    | toolResult i c =>
      rw [List.cons_append]
      simp only [wfHist] at hw ⊢
      exact ih hw

theorem wfHist_contentTurns (h : List Turn) (c : Option String) (hw : wfHist h = true) :
    wfHist (h ++ contentTurns c) = true := by
  rw [wfHist_append h _ hw]
  unfold contentTurns
  split <;> simp [wfHist]

theorem wfHist_toolPair (h : List Turn) (tc : ToolCall) (s : String) (hw : wfHist h = true) :
    wfHist (h ++ [Turn.assistantToolCalls tc, Turn.toolResult tc.id s]) = true := by
  rw [wfHist_append h _ hw]
  simp [wfHist]

theorem runRound_reason_calls (env : Env) (m : String) (h : List Turn) :
    ((runRound env m h).2.2).filter Call.isReason = [Call.reasonCall m h] := by
  rcases hE : env.reason (reasoningMessages m h) with e | resp
  · simp [runRound, hE, Call.isReason, Call.isGate, List.filter]
  · rcases hT : resp.tool_calls.head? with _ | tc
    · rcases hG : grok_search env (chat_summary (h ++ contentTurns resp.content)) with e | p
      · simp [runRound, hE, hT, hG, Call.isReason, List.filter]
      · rcases p with ⟨resp2, fbEv⟩
        cases hy : resp2 == "yes" <;>
          simp [runRound, hE, hT, hG, hy, Call.isReason, List.filter]
    · rcases hX : env.handle_function_call tc.name tc.arguments with e | r <;>
        simp [runRound, hE, hT, hX, Call.isReason, List.filter]

theorem errorEvents_append (a b : List Event) :
    errorEvents (a ++ b) = errorEvents a ++ errorEvents b := by
  simp [errorEvents, List.filter_append]

theorem errorEvents_contentEvents (c : Option String) :
    errorEvents (contentEvents c) = [] := by
  unfold contentEvents
  split <;> rfl

theorem contentEvents_not_error (c : Option String) (ev : Event)
    (hev : ev ∈ contentEvents c) : ev.isError = false := by
  unfold contentEvents at hev
  split at hev
  · simp at hev
    rw [hev]
    rfl
  · simp at hev

theorem runRound_no_error_events (env : Env) (m : String) (h : List Turn) :
    errorEvents (runRound env m h).2.1 = [] := by
  rcases hE : env.reason (reasoningMessages m h) with e | resp
  · simp [runRound, hE, errorEvents]
  · rcases hT : resp.tool_calls.head? with _ | tc
    · rcases hG : env.grok (grokInstruction ++
          chat_summary (h ++ contentTurns resp.content)) with e | resp2
      · simp only [runRound, grok_search, hE, hT, hG]
        rw [errorEvents_append, errorEvents_contentEvents]
        rfl
      · cases hy : resp2 == "yes" <;>
          · simp only [runRound, grok_search, hE, hT, hG, hy]
            simp [errorEvents_append, errorEvents_contentEvents, errorEvents, Event.isError]
            intro a ha
            exact contentEvents_not_error _ a ha
    · rcases hX : env.handle_function_call tc.name tc.arguments with e | r <;>
        · simp only [runRound, hE, hT, hX]
          rw [errorEvents_append, errorEvents_contentEvents]
          rfl

theorem runRound_next_wf (env : Env) (m : String) (h : List Turn) (m2 : String)
    (h2 : List Turn) (hr : (runRound env m h).1 = RoundNext.next m2 h2)
    (hw : wfHist h = true) : wfHist h2 = true := by
  rcases hE : env.reason (reasoningMessages m h) with e | resp
  · simp [runRound, hE] at hr
  · rcases hT : resp.tool_calls.head? with _ | tc
    · rcases hG : grok_search env (chat_summary (h ++ contentTurns resp.content)) with e | p
      · simp [runRound, hE, hT, hG] at hr
      · rcases p with ⟨resp2, fbEv⟩
        cases hy : resp2 == "yes"
        · simp [runRound, hE, hT, hG, hy] at hr
          rw [← hr.2]
          exact wfHist_contentTurns h resp.content hw
        · simp [runRound, hE, hT, hG, hy] at hr
    · rcases hX : env.handle_function_call tc.name tc.arguments with e | r
      · simp [runRound, hE, hT, hX] at hr
      · simp [runRound, hE, hT, hX] at hr
        rw [← hr.2, ← List.append_assoc]
        exact wfHist_toolPair _ tc _ (wfHist_contentTurns h resp.content hw)

theorem reason_call_eq_of_mem (env : Env) (m : String) (h : List Turn)
    (m2 : String) (h2 : List Turn)
    (hc : Call.reasonCall m2 h2 ∈ (runRound env m h).2.2) :
    m2 = m ∧ h2 = h := by
  have hmem : Call.reasonCall m2 h2 ∈ ((runRound env m h).2.2).filter Call.isReason :=
    List.mem_filter.mpr ⟨hc, rfl⟩
  rw [runRound_reason_calls] at hmem
  simp at hmem
  exact ⟨hmem.1, hmem.2⟩

theorem LoopResult.seq_events (evs : List Event) (cs : List Call) (r : LoopResult) :
    (LoopResult.seq evs cs r).events = evs ++ r.events := by
  cases r <;> rfl

theorem LoopResult.seq_calls (evs : List Event) (cs : List Call) (r : LoopResult) :
    (LoopResult.seq evs cs r).calls = cs ++ r.calls := by
  cases r <;> rfl

theorem runLoop_no_error_events (env : Env) :
    ∀ (n : Nat) (m : String) (h : List Turn),
      errorEvents (runLoop env n m h).events = [] := by
  intro n
  induction n with
  | zero => intro m h; rfl
  | succ n ih =>
    intro m h
    rcases hR : runRound env m h with ⟨nx, evs, cs⟩
    have hevs : errorEvents evs = [] := by
      have h0 := runRound_no_error_events env m h
      rw [hR] at h0
      exact h0
    cases nx with
    | next m2 h2 =>
      simp only [runLoop, hR, LoopResult.seq_events]
      rw [errorEvents_append, hevs, ih m2 h2]
      rfl
    | finished h2 =>
      simp only [runLoop, hR, LoopResult.events]
      exact hevs
    | failed e s =>
      simp only [runLoop, hR, LoopResult.events]
      exact hevs

theorem runLoop_reason_calls_wf (env : Env) :
    ∀ (n : Nat) (m : String) (h : List Turn), wfHist h = true →
      ∀ m2 h2, Call.reasonCall m2 h2 ∈ (runLoop env n m h).calls →
        wfHist h2 = true := by
  intro n
  induction n with
  | zero =>
    intro m h hw m2 h2 hm
    simp [runLoop, LoopResult.calls] at hm
  | succ n ih =>
    intro m h hw m2 h2 hm
    rcases hR : runRound env m h with ⟨nx, evs, cs⟩
    have hcs : ∀ m3 h3, Call.reasonCall m3 h3 ∈ cs → wfHist h3 = true := by
      intro m3 h3 hmem
      have hmem2 : Call.reasonCall m3 h3 ∈ (runRound env m h).2.2 := by
        rw [hR]
        exact hmem
      rcases reason_call_eq_of_mem env m h m3 h3 hmem2 with ⟨he1, he2⟩
      rw [he2]
      exact hw
    cases nx with
    | next m3 h3 =>
      simp only [runLoop, hR, LoopResult.seq_calls] at hm
      rcases List.mem_append.mp hm with hin | hin
      · exact hcs m2 h2 hin
      · exact ih m3 h3 (runRound_next_wf env m h m3 h3 (by rw [hR]) hw) m2 h2 hin
    | finished h3 =>
      simp only [runLoop, hR, LoopResult.calls] at hm
      exact hcs m2 h2 hm
    | failed e s =>
      simp only [runLoop, hR, LoopResult.calls] at hm
      exact hcs m2 h2 hm

/-- A concrete tool call used to exercise the loop on closed inputs. -/
def tcW : ToolCall := ⟨"call_1", "BRAVE_SEARCH__WEB_SEARCH", "dire wolf"⟩

/-- Collaborator stub: the reasoning model always requests `tcW`. -/
def envTool : Env :=
  ⟨fun _ => .ok ⟨some "Searching", [tcW]⟩,
   fun _ _ => .ok (.success "42"),
   fun _ => .ok "yes"⟩

/-- Collaborator stub: direct answer, affirming gate. -/
def envAnswer : Env :=
  ⟨fun _ => .ok ⟨some "Answer", []⟩,
   fun _ _ => .ok (.success "42"),
   fun _ => .ok "yes"⟩

/-- Collaborator stub: direct answer, gate returns a replacement query. -/
def envRetry : Env :=
  ⟨fun _ => .ok ⟨some "Answer", []⟩,
   fun _ _ => .ok (.success "42"),
   fun _ => .ok "search the press release"⟩

/-- Collaborator stub: the tool executor reports a structured failure. -/
def envToolFail : Env :=
  ⟨fun _ => .ok ⟨some "Searching", [tcW]⟩,
   fun _ _ => .ok (.failure "rate limit"),
   fun _ => .ok "yes"⟩

/-- Collaborator stub: the reasoning call raises an exception. -/
def envBoom : Env :=
  ⟨fun _ => .error "boom",
   fun _ _ => .ok (.success "42"),
   fun _ => .ok "yes"⟩

/-- Claim C1: a failing tool execution is serialized and appended to the
chat history as a tool-result turn carrying the call id of the request, the
next reasoning context contains that turn, no error event is emitted, and
the round loops back (`RoundNext.next`) instead of failing. -/
theorem C1_tool_failure_folded_back (env : Env) (m : String) (h : List Turn)
    (resp : ModelMessage) (tc : ToolCall) (err : String)
    (hE : env.reason (reasoningMessages m h) = Except.ok resp)
    (hT : resp.tool_calls.head? = some tc)
    (hX : env.handle_function_call tc.name tc.arguments =
      Except.ok (ToolOutcome.failure err)) :
    runRound env m h =
      (RoundNext.next m (h ++ contentTurns resp.content ++
          [Turn.assistantToolCalls tc,
           Turn.toolResult tc.id (toolResultDumps (ToolOutcome.failure err))]),
       contentEvents resp.content ++
         [Event.progress ("Function Call: " ++ tc.name ++ "\nArguments: " ++ tc.arguments),
          Event.progress ("Function Result: " ++ toolResultDumpsIndent (ToolOutcome.failure err))],
       [Call.reasonCall m h, Call.toolCall tc.name tc.arguments]) ∧
    errorEvents (runRound env m h).2.1 = [] ∧
    ChatMsg.hist (Turn.toolResult tc.id (toolResultDumps (ToolOutcome.failure err))) ∈
      reasoningMessages m (h ++ contentTurns resp.content ++
        [Turn.assistantToolCalls tc,
         Turn.toolResult tc.id (toolResultDumps (ToolOutcome.failure err))]) := by
  refine ⟨?_, runRound_no_error_events env m h, ?_⟩
  · simp [runRound, hE, hT, hX]
  · simp [reasoningMessages]

/-- Witness for C1 on closed inputs. -/
theorem C1_tool_failure_folded_back_witness :
    envToolFail.handle_function_call tcW.name tcW.arguments =
        Except.ok (ToolOutcome.failure "rate limit") ∧
    errorEvents (runRound envToolFail "q" []).2.1 = [] :=
  ⟨rfl, (C1_tool_failure_folded_back envToolFail "q" [] ⟨some "Searching", [tcW]⟩ tcW
    "rate limit" rfl rfl rfl).2.1⟩

/-- Claim C2: the quality gate is called exactly once in a round where the
reasoning model returns no tool call, never in a round where it returns
one, and a successful tool round loops straight back to reasoning. -/
theorem C2_gate_once_per_non_tool_round (env : Env) (m : String) (h : List Turn)
    (resp : ModelMessage)
    (hE : env.reason (reasoningMessages m h) = Except.ok resp) :
    (resp.tool_calls.head? = none → gateCallCount (runRound env m h).2.2 = 1) ∧
    (∀ tc, resp.tool_calls.head? = some tc →
      gateCallCount (runRound env m h).2.2 = 0) ∧
    (∀ tc r, resp.tool_calls.head? = some tc →
      env.handle_function_call tc.name tc.arguments = Except.ok r →
      (runRound env m h).1 = RoundNext.next m (h ++ contentTurns resp.content ++
        [Turn.assistantToolCalls tc, Turn.toolResult tc.id (toolResultDumps r)])) := by
  refine ⟨?_, ?_, ?_⟩
  · intro hT
    rcases hG : env.grok (grokInstruction ++
        chat_summary (h ++ contentTurns resp.content)) with e | resp2
    · simp [runRound, grok_search, hE, hT, hG, gateCallCount, Call.isGate]
    · cases hy : resp2 == "yes" <;>
        simp [runRound, grok_search, hE, hT, hG, hy, gateCallCount, Call.isGate]
  · intro tc hT
    rcases hX : env.handle_function_call tc.name tc.arguments with e | r <;>
      simp [runRound, hE, hT, hX, gateCallCount, Call.isGate]
  · intro tc r hT hX
    simp [runRound, hE, hT, hX]

/-- Witness for C2 on closed inputs: a tool round and a non-tool round. -/
theorem C2_gate_once_per_non_tool_round_witness :
    gateCallCount (runRound envTool "q" []).2.2 = 0 ∧
    gateCallCount (runRound envAnswer "q" []).2.2 = 1 :=
  ⟨(C2_gate_once_per_non_tool_round envTool "q" [] ⟨some "Searching", [tcW]⟩ rfl).2.1
      tcW rfl,
   (C2_gate_once_per_non_tool_round envAnswer "q" [] ⟨some "Answer", []⟩ rfl).1 rfl⟩

/-- Claim C3: the inner loop terminates on a gate round exactly when the
text of the gate model equals "yes" (case-sensitively); any other text becomes
the replacement query of the next round. -/
theorem C3_gate_match_exact (env : Env) (m : String) (h : List Turn)
    (resp : ModelMessage) (resp2 : String)
    (hE : env.reason (reasoningMessages m h) = Except.ok resp)
    (hT : resp.tool_calls.head? = none)
    (hG : env.grok (grokInstruction ++
        chat_summary (h ++ contentTurns resp.content)) = Except.ok resp2) :
    ((runRound env m h).1 = RoundNext.finished (h ++ contentTurns resp.content) ↔
      resp2 = "yes") ∧
    ((resp2 == "yes") = false →
      (runRound env m h).1 = RoundNext.next resp2 (h ++ contentTurns resp.content)) := by
  constructor
  · constructor
    · intro hfin
      by_contra hne
      have hy : (resp2 == "yes") = false := by
        simp [hne]
      simp [runRound, grok_search, hE, hT, hG, hy] at hfin
    · intro hyeq
      subst hyeq
      simp [runRound, grok_search, hE, hT, hG]
  · intro hy
    simp [runRound, grok_search, hE, hT, hG, hy]

/-- Witness for C3 on closed inputs: an affirming gate and a retrying gate. -/
theorem C3_gate_match_exact_witness :
    (runRound envAnswer "q" []).1 =
        RoundNext.finished ([] ++ contentTurns (some "Answer")) ∧
    (runRound envRetry "q" []).1 =
        RoundNext.next "search the press release" ([] ++ contentTurns (some "Answer")) :=
  ⟨(C3_gate_match_exact envAnswer "q" [] ⟨some "Answer", []⟩ "yes" rfl rfl rfl).1.mpr rfl,
   (C3_gate_match_exact envRetry "q" [] ⟨some "Answer", []⟩ "search the press release"
      rfl rfl rfl).2 (by decide)⟩

/-- Claim C4: a successful tool round appends exactly one tool-request turn
immediately followed by exactly one tool-result turn with the same call id,
and at every reasoning call made while processing one user message the
accumulated history satisfies that pairing invariant. -/
theorem C4_request_result_pairing (env : Env) :
    (∀ (m : String) (h : List Turn) (resp : ModelMessage) (tc : ToolCall)
        (r : ToolOutcome),
      env.reason (reasoningMessages m h) = Except.ok resp →
      resp.tool_calls.head? = some tc →
      env.handle_function_call tc.name tc.arguments = Except.ok r →
      (runRound env m h).1 = RoundNext.next m (h ++ contentTurns resp.content ++
        [Turn.assistantToolCalls tc, Turn.toolResult tc.id (toolResultDumps r)])) ∧
    (∀ (fuel : Nat) (msg m2 : String) (h2 : List Turn),
      Call.reasonCall m2 h2 ∈ (processMessage env fuel msg).2 →
      wfHist h2 = true) := by
  constructor
  · intro m h resp tc r hE hT hX
    simp [runRound, hE, hT, hX]
  · intro fuel msg m2 h2 hm
    have hpc : (processMessage env fuel msg).2 = (runLoop env fuel msg []).calls := by
      unfold processMessage
      rcases runLoop env fuel msg [] with h1 | h1 | h1 <;> rfl
    rw [hpc] at hm
    exact runLoop_reason_calls_wf env fuel msg [] rfl m2 h2 hm

/-- The history seen by the second reasoning call of `envTool`. -/
def histW1 : List Turn :=
  [Turn.assistantMessage "Searching", Turn.assistantToolCalls tcW,
   Turn.toolResult "call_1" (toolResultDumps (ToolOutcome.success "42"))]

/-- Witness for C4 on closed inputs. -/
theorem C4_request_result_pairing_witness :
    Call.reasonCall "q" histW1 ∈ (processMessage envTool 2 "q").2 ∧
    wfHist histW1 = true :=
  ⟨by decide, (C4_request_result_pairing envTool).2 2 "q" "q" histW1 (by decide)⟩

/-- Claim C5: a gate retry replaces only the working message; the history
of the next round is exactly the history the gate transcript was built
from — an extension of the incoming history, never reset or truncated. -/
theorem C5_retry_preserves_history (env : Env) (m : String) (h : List Turn)
    (resp : ModelMessage) (resp2 : String)
    (hE : env.reason (reasoningMessages m h) = Except.ok resp)
    (hT : resp.tool_calls.head? = none)
    (hG : env.grok (grokInstruction ++
        chat_summary (h ++ contentTurns resp.content)) = Except.ok resp2)
    (hy : (resp2 == "yes") = false) :
    runRound env m h =
      (RoundNext.next resp2 (h ++ contentTurns resp.content),
       contentEvents resp.content ++
         [Event.final "Task Completed",
          Event.progress ("Feedback from Grok: " ++ resp2)],
       [Call.reasonCall m h,
        Call.gateCall (chat_summary (h ++ contentTurns resp.content))]) ∧
    (∃ tail, h ++ contentTurns resp.content = h ++ tail) := by
  refine ⟨?_, ⟨contentTurns resp.content, rfl⟩⟩
  simp [runRound, grok_search, hE, hT, hG, hy]

/-- Witness for C5 on closed inputs. -/
theorem C5_retry_preserves_history_witness :
    runRound envRetry "q" [] =
      (RoundNext.next "search the press release" ([] ++ contentTurns (some "Answer")),
       contentEvents (some "Answer") ++
         [Event.final "Task Completed",
          Event.progress ("Feedback from Grok: " ++ "search the press release")],
       [Call.reasonCall "q" [],
        Call.gateCall (chat_summary ([] ++ contentTurns (some "Answer")))]) ∧
    (∃ tail, [] ++ contentTurns (some "Answer") = ([] : List Turn) ++ tail) :=
  C5_retry_preserves_history envRetry "q" [] ⟨some "Answer", []⟩
    "search the press release" rfl rfl rfl (by decide)

/-- Claim C6: when the inner loop raises, the handler emits exactly one
error event, placed after the events already sent, carrying the raised
string description of the exception and the chat-history snapshot; the outer
receive loop then continues with the next inbound message. -/
theorem C6_errors_reported_once (env : Env) (fuel : Nat) (msg e : String)
    (snap : List Turn) (evs : List Event) (cs : List Call)
    (hL : runLoop env fuel msg [] = LoopResult.failed e snap evs cs) :
    (processMessage env fuel msg).1 =
      Event.progress "Processing your request..." ::
        (evs ++ [Event.error e snap]) ∧
    errorEvents (processMessage env fuel msg).1 = [Event.error e snap] ∧
    (∀ rest, runSession env fuel (WireEvent.text 0 msg :: rest) =
      (processMessage env fuel msg).1 ++ runSession env fuel rest) := by
  have hpm : (processMessage env fuel msg).1 =
      Event.progress "Processing your request..." ::
        (evs ++ [Event.error e snap]) := by
    simp [processMessage, hL]
  have hevs : errorEvents evs = [] := by
    have h0 := runLoop_no_error_events env fuel msg []
    rw [hL] at h0
    exact h0
  refine ⟨hpm, ?_, ?_⟩
  · rw [hpm]
    unfold errorEvents at hevs ⊢
    simp [List.filter_cons, List.filter_append, hevs, Event.isError]
  · intro rest
    simp [runSession, recv, RECEIVE_TIMEOUT]

/-- Witness for C6 on closed inputs: a raising reasoning call. -/
theorem C6_errors_reported_once_witness :
    runLoop envBoom 1 "q" [] =
      LoopResult.failed "boom" [] [] [Call.reasonCall "q" []] ∧
    errorEvents (processMessage envBoom 1 "q").1 = [Event.error "boom" []] :=
  ⟨by decide,
   (C6_errors_reported_once envBoom 1 "q" "boom" [] [] [Call.reasonCall "q" []]
      (by decide)).2.1⟩

/-- Claim C7: the receive wait window is 600 seconds and its expiry makes
the connection task exit the receive loop silently: no event at all (in
particular no error event) is emitted after the timeout. -/
theorem C7_timeout_silent (env : Env) (fuel : Nat) (rest : List WireEvent)
    (gap : Nat) (s : String) :
    RECEIVE_TIMEOUT = 600 ∧
    (RECEIVE_TIMEOUT < gap →
      runSession env fuel (WireEvent.text gap s :: rest) = []) ∧
    runSession env fuel (WireEvent.nothing :: rest) = [] := by
  refine ⟨rfl, ?_, ?_⟩
  · intro hgap
    simp [runSession, recv, hgap]
  · simp [runSession, recv]

/-- Witness for C7 on closed inputs. -/
theorem C7_timeout_silent_witness :
    RECEIVE_TIMEOUT < 601 ∧
    runSession envTool 0 [WireEvent.text 601 "hi"] = [] :=
  ⟨by decide, (C7_timeout_silent envTool 0 [] 601 "hi").2.1 (by decide)⟩

/-- Transcript built the way the spec sentence describes it: one
"role: content" line per turn whose content field is present and
non-empty, in history order (modelled from the spec for the refinement
comparison against the source-side `chat_summary`). -/
def specTranscriptLines : List Turn → List String
  | [] => []
  | t :: ts =>
    match t.content? with
    | some c =>
      if c = "" then specTranscriptLines ts
      else (t.role ++ ": " ++ c) :: specTranscriptLines ts
    | none => specTranscriptLines ts

/-- Claim C8: the gate transcript is the newline-join of exactly the
spec-described lines, and turns without textual content — in particular
assistant tool-request turns — contribute no line. -/
theorem C8_transcript_shape :
    (∀ h : List Turn,
      chat_summary h = String.intercalate "\n" (specTranscriptLines h)) ∧
    (∀ (h1 h2 : List Turn) (tc : ToolCall),
      chat_summary (h1 ++ Turn.assistantToolCalls tc :: h2) =
        chat_summary (h1 ++ h2)) := by
  have key : ∀ h : List Turn,
      (h.filter (fun msg => pyTruthy msg.content?)).map
        (fun msg => msg.role ++ ": " ++ msg.content?.getD "") =
        specTranscriptLines h := by
    intro h
    induction h with
    | nil => rfl
    | cons t ts ih =>
      cases t with
      | assistantMessage c =>
        by_cases hc : c = ""
        · subst hc
          rw [List.filter_cons_of_neg (by simp [pyTruthy, Turn.content?])]
          rw [ih]
          simp [specTranscriptLines, Turn.content?]
        · rw [List.filter_cons_of_pos (by simp [pyTruthy, Turn.content?, hc])]
          rw [List.map_cons, ih]
          simp [specTranscriptLines, Turn.content?, Turn.role, hc]
      | assistantToolCalls tc =>
        rw [List.filter_cons_of_neg (by simp [pyTruthy, Turn.content?])]
        rw [ih]
        simp [specTranscriptLines, Turn.content?]
      | toolResult i c =>
        by_cases hc : c = ""
        · subst hc
          rw [List.filter_cons_of_neg (by simp [pyTruthy, Turn.content?])]
          rw [ih]
          simp [specTranscriptLines, Turn.content?]
        · rw [List.filter_cons_of_pos (by simp [pyTruthy, Turn.content?, hc])]
          rw [List.map_cons, ih]
          simp [specTranscriptLines, Turn.content?, Turn.role, hc]
  constructor
  · intro h
    unfold chat_summary
    rw [key]
  · intro h1 h2 tc
    unfold chat_summary
    rw [List.filter_append, List.filter_append,
      List.filter_cons_of_neg (by simp [pyTruthy, Turn.content?])]

/-- Claim C9: a reasoning response carrying both text and a tool call makes
the round emit the message event, append the assistant message turn, and
dispatch the tool in the same round — and no gate call happens that round. -/
theorem C9_message_and_tool_same_round (env : Env) (m : String) (h : List Turn)
    (resp : ModelMessage) (c : String) (tc : ToolCall) (r : ToolOutcome)
    (hC : resp.content = some c) (hc0 : (c == "") = false)
    (hE : env.reason (reasoningMessages m h) = Except.ok resp)
    (hT : resp.tool_calls.head? = some tc)
    (hX : env.handle_function_call tc.name tc.arguments = Except.ok r) :
    runRound env m h =
      (RoundNext.next m (h ++ [Turn.assistantMessage c, Turn.assistantToolCalls tc,
          Turn.toolResult tc.id (toolResultDumps r)]),
       [Event.message c,
        Event.progress ("Function Call: " ++ tc.name ++ "\nArguments: " ++ tc.arguments),
        Event.progress ("Function Result: " ++ toolResultDumpsIndent r)],
       [Call.reasonCall m h, Call.toolCall tc.name tc.arguments]) ∧
    gateCallCount (runRound env m h).2.2 = 0 := by
  have hct : contentTurns resp.content = [Turn.assistantMessage c] := by
    simp [contentTurns, hC, pyTruthy, hc0]
  have hce : contentEvents resp.content = [Event.message c] := by
    simp [contentEvents, hC, pyTruthy, hc0]
  constructor
  · simp [runRound, hE, hT, hX, hct, hce]
  · simp [runRound, hE, hT, hX, gateCallCount, Call.isGate]

/-- Witness for C9 on closed inputs. -/
theorem C9_message_and_tool_same_round_witness :
    gateCallCount (runRound envTool "q" []).2.2 = 0 :=
  (C9_message_and_tool_same_round envTool "q" [] ⟨some "Searching", [tcW]⟩
    "Searching" tcW (ToolOutcome.success "42") rfl (by decide) rfl rfl rfl).2

/-- Claim C10: every reasoning context is exactly the system prompt, one
user turn holding the current working message, then the accumulated
history; history turns never carry the user role, so the only user-role
entry of any reasoning context is the current working message. -/
theorem C10_single_user_turn :
    (∀ (m : String) (h : List Turn),
      reasoningMessages m h =
        ChatMsg.system prompt :: ChatMsg.user m :: h.map ChatMsg.hist) ∧
    (∀ (m : String) (h : List Turn),
      (reasoningMessages m h).filter (fun c => c.role == "user") =
        [ChatMsg.user m]) ∧
    (∀ t : Turn, ((ChatMsg.hist t).role == "user") = false) := by
  have hrole : ∀ t : Turn, ((ChatMsg.hist t).role == "user") = false := by
    intro t
    cases t <;> rfl
  refine ⟨fun m h => rfl, ?_, hrole⟩
  intro m h
  unfold reasoningMessages
  rw [List.filter_cons_of_neg (by decide), List.filter_cons_of_pos (by rfl)]
  have hnil : (h.map ChatMsg.hist).filter (fun c => c.role == "user") = [] := by
    rw [List.filter_eq_nil_iff]
    intro a ha
    rcases List.mem_map.mp ha with ⟨t, _, rfl⟩
    simp [hrole t]
  rw [hnil]

end SourceFinder
